import Mathlib

/-!
Verification development for the code-review-agent repository.

The definitions below are a shallow embedding of the error-handling layer of
the frontend (http-errors, api-error-handler, backend-error-handler, the
copilotkit route catch block) and, where noted, a model of the backend
pipeline built from the design document. JavaScript runtime values that the
code inspects dynamically are modelled by the inductive type JsVal;
fallible operations return Option or Except.
-/

namespace CodeReview

/-- A JavaScript runtime value, as far as the error-handling code inspects
one: strings, numbers, booleans, null, undefined, and plain objects given
as association lists of properties. -/
inductive JsVal where
  | str : String → JsVal
  | num : Int → JsVal
  | boolean : Bool → JsVal
  | null : JsVal
  | undef : JsVal
  | obj : List (String × JsVal) → JsVal

/-- JavaScript truthiness of a value. Objects are always truthy; the empty
string, zero, false, null and undefined are falsy. -/
def JsVal.truthy : JsVal → Bool
  | JsVal.str s => !s.isEmpty
  | JsVal.num n => n != 0
  | JsVal.boolean b => b
  | JsVal.null => false
  | JsVal.undef => false
  | JsVal.obj _ => true

/-- The String(v) coercion of JavaScript, on the values of JsVal. -/
def JsVal.jsToString : JsVal → String
  | JsVal.str s => s
  | JsVal.num n => toString n
  | JsVal.boolean b => if b then "true" else "false"
  | JsVal.null => "null"
  | JsVal.undef => "undefined"
  | JsVal.obj _ => "[object Object]"

/-- Property records carried in the details field of an HttpException. -/
def Details : Type := List (String × JsVal)

/-- First property with the given key, or undefined when absent. -/
def getProp : List (String × JsVal) → String → JsVal
  | [], _ => JsVal.undef
  | (k, v) :: rest, key => if k = key then v else getProp rest key

/-- Property access on a general value: lookup on objects, undefined on
every non-object (matching JavaScript for non-null primitives). -/
def JsVal.getField : JsVal → String → JsVal
  | JsVal.obj l, key => getProp l key
  | _, _ => JsVal.undef

/-- Optional-chaining access d?.key where d may be absent. -/
def optGetProp (d : Option Details) (key : String) : JsVal :=
  match d with
  | none => JsVal.undef
  | some l => getProp l key

/-- The JavaScript a || b operator: the left value when truthy, else the
right value. -/
def jsOr (a b : JsVal) : JsVal :=
  if a.truthy then a else b

/-- Calendar components of a Date as consumed by toISOString. -/
structure DateTime where
  year : Nat
  month : Nat
  day : Nat
  hour : Nat
  minute : Nat
  second : Nat
  millis : Nat

/-- Decimal digit character for n mod 10. -/
def digitChar10 (n : Nat) : Char := Char.ofNat (48 + n % 10)

/-- Two-digit zero-padded decimal rendering. -/
def pad2 (n : Nat) : List Char := [digitChar10 (n / 10), digitChar10 n]

/-- Three-digit zero-padded decimal rendering. -/
def pad3 (n : Nat) : List Char := [digitChar10 (n / 100), digitChar10 (n / 10), digitChar10 n]

/-- Four-digit zero-padded decimal rendering. -/
def pad4 (n : Nat) : List Char := digitChar10 (n / 1000) :: pad3 n

/-- The Date.toISOString rendering YYYY-MM-DDTHH:MM:SS.mmmZ of a date. -/
def toISOString (d : DateTime) : String :=
  String.mk (pad4 d.year ++ ['-'] ++ pad2 d.month ++ ['-'] ++ pad2 d.day ++ ['T']
    ++ pad2 d.hour ++ [':'] ++ pad2 d.minute ++ [':'] ++ pad2 d.second ++ ['.']
    ++ pad3 d.millis ++ ['Z'])

/-- Syntactic check that a string has the ISO-8601 basic date-time shape
YYYY-MM-DDTHH:MM:SS.mmmZ used by Date.toISOString. -/
def isISO8601String (s : String) : Bool :=
  match s.toList with
  | [y1, y2, y3, y4, c1, m1, m2, c2, d1, d2, c3, h1, h2, c4, mi1, mi2, c5, s1, s2, c6, ms1, ms2, ms3, c7] =>
      y1.isDigit && y2.isDigit && y3.isDigit && y4.isDigit && (c1 == '-')
      && m1.isDigit && m2.isDigit && (c2 == '-') && d1.isDigit && d2.isDigit
      && (c3 == 'T') && h1.isDigit && h2.isDigit && (c4 == ':')
      && mi1.isDigit && mi2.isDigit && (c5 == ':') && s1.isDigit && s2.isDigit
      && (c6 == '.') && ms1.isDigit && ms2.isDigit && ms3.isDigit && (c7 == 'Z')
  | _ => false

theorem digitChar10_isDigit (n : Nat) : (digitChar10 n).isDigit = true := by
  unfold digitChar10
  have h : n % 10 < 10 := Nat.mod_lt _ (by decide)
  generalize n % 10 = k at h
  interval_cases k <;> decide

theorem toISOString_iso (d : DateTime) : isISO8601String (toISOString d) = true := by
  simp [toISOString, isISO8601String, pad4, pad3, pad2, String.toList, digitChar10_isDigit]

/-- Default error name for each HTTP status code known to the codebase, the
errorNames table of http-errors, with the Unknown Error fallback. -/
def getDefaultErrorName : Nat → String
  | 400 => "Bad Request"
  | 401 => "Unauthorized"
  | 403 => "Forbidden"
  | 404 => "Not Found"
  | 405 => "Method Not Allowed"
  | 409 => "Conflict"
  | 422 => "Unprocessable Entity"
  | 429 => "Too Many Requests"
  | 500 => "Internal Server Error"
  | 502 => "Bad Gateway"
  | 503 => "Service Unavailable"
  | 504 => "Gateway Timeout"
  | _ => "Unknown Error"

/-- The HttpException class of http-errors: status code, message, error
name and optional details record. -/
structure HttpException where
  statusCode : Nat
  message : String
  error : String
  details : Option Details

/-- The HttpException constructor: the error name defaults to the name of
the status code when the argument is absent or the empty string (the
error || getDefaultErrorName(statusCode) expression). -/
def HttpException.make (statusCode : Nat) (message : String)
    (error : Option String) (details : Option Details) : HttpException :=
  { statusCode := statusCode
    message := message
    error := match error with
      | some e => if e.isEmpty then getDefaultErrorName statusCode else e
      | none => getDefaultErrorName statusCode
    details := details }

/-- The BadRequestError subclass constructor: status 400. -/
def BadRequestError.make (message : String) (details : Option Details) : HttpException :=
  HttpException.make 400 message (some "Bad Request") details

/-- The InternalServerError subclass constructor: status 500. -/
def InternalServerError.make (message : String) (details : Option Details) : HttpException :=
  HttpException.make 500 message (some "Internal Server Error") details

/-- The BadGatewayError subclass constructor: status 502. -/
def BadGatewayError.make (message : String) (details : Option Details) : HttpException :=
  HttpException.make 502 message (some "Bad Gateway") details

/-- The ServiceUnavailableError subclass constructor: status 503. -/
def ServiceUnavailableError.make (message : String) (details : Option Details) : HttpException :=
  HttpException.make 503 message (some "Service Unavailable") details

/-- The GatewayTimeoutError subclass constructor: status 504. -/
def GatewayTimeoutError.make (message : String) (details : Option Details) : HttpException :=
  HttpException.make 504 message (some "Gateway Timeout") details

/-- The ApiErrorResponse JSON envelope of the types module: error, message,
optional request_id, status_code, optional timestamp, optional details. -/
structure ApiErrorResponse where
  error : String
  message : String
  request_id : Option String
  status_code : Nat
  timestamp : Option String
  details : Option Details

/-- HttpException.toJSON: the envelope with the current time rendered by
toISOString; the details key is present exactly when the exception carries
a details record (the object spread guarded by this.details). -/
def HttpException.toJSON (h : HttpException) (now : DateTime) : ApiErrorResponse :=
  { error := h.error
    message := h.message
    request_id := none
    status_code := h.statusCode
    timestamp := some (toISOString now)
    details := h.details }

/-- A thrown JavaScript value as the error handlers see it: an
HttpException instance, a plain Error (name, message, and whether a
backendError property was attached by createClientErrorFromBackend), or a
non-Error value. -/
inductive JsError where
  | http : HttpException → JsError
  | err : String → String → Bool → JsError
  | other : JsVal → JsError

/-- isHttpException: the instanceof HttpException test. -/
def isHttpException : JsError → Bool
  | JsError.http _ => true
  | _ => false

/-- toHttpException of http-errors: identity on HttpException; a plain
Error is wrapped into an InternalServerError keeping its message and
recording its name in details; any other value is wrapped into a generic
InternalServerError recording its String coercion. -/
def toHttpException : JsError → HttpException
  | JsError.http h => h
  | JsError.err name msg _ =>
      InternalServerError.make msg (some [("originalError", JsVal.str name)])
  | JsError.other v =>
      InternalServerError.make "An unknown error occurred" (some [("originalError", JsVal.str v.jsToString)])

/-- handleApiError of api-error-handler: converts the thrown value to an
HttpException, lifts a requestId or request_id entry of its details into
the request_id field of the envelope when truthy, and responds with the
toJSON envelope under the exception status. The result pairs the HTTP
status of the response with its JSON body. -/
def handleApiError (error : JsError) (now : DateTime) : Nat × ApiErrorResponse :=
  let httpError := toHttpException error
  let backendRequestId := jsOr (optGetProp httpError.details "requestId")
    (optGetProp httpError.details "request_id")
  let baseResponse := HttpException.toJSON httpError now
  let errorResponse :=
    if backendRequestId.truthy then
      { baseResponse with request_id := some backendRequestId.jsToString }
    else baseResponse
  (httpError.statusCode, errorResponse)

/-- An inbound request as far as the handlers inspect one. -/
structure RequestModel where
  method : String
  url : String

/-- A route response: either the wrapped handler response of type T, or an
error response produced by handleApiError. -/
inductive RouteResponse (T : Type) where
  | success : T → RouteResponse T
  | failure : Nat × ApiErrorResponse → RouteResponse T

/-- withErrorHandler of api-error-handler: runs the wrapped handler and, on
any thrown value, answers with the handleApiError response instead of
propagating the exception. -/
def withErrorHandler {T : Type} (handler : RequestModel → Except JsError T)
    (now : DateTime) (req : RequestModel) : RouteResponse T :=
  match handler req with
  | Except.ok t => RouteResponse.success t
  | Except.error e => RouteResponse.failure (handleApiError e now)

/-- The options record of validateRequest. -/
structure ValidateOptions where
  requiredMethod : Option String
  requiredBody : Option Bool
  requiredHeaders : Option (List String)

/-- validateRequest of api-error-handler: throws a 405 HttpException when a
required method is configured (and non-empty, the truthiness guard) and
the request method differs; otherwise succeeds. -/
def validateRequest (req : RequestModel) (options : Option ValidateOptions) :
    Except HttpException Unit :=
  match options with
  | none => Except.ok ()
  | some o =>
    match o.requiredMethod with
    | none => Except.ok ()
    | some m =>
      if m.isEmpty then Except.ok ()
      else if req.method ≠ m then
        Except.error (HttpException.make 405
          ("Method " ++ req.method ++ " not allowed. Expected " ++ m)
          (some "Method Not Allowed") none)
      else Except.ok ()

/-- Whether the first list occurs at the head of the second. -/
def leadsWith : List Char → List Char → Bool
  | [], _ => true
  | _ :: _, [] => false
  | a :: as, b :: bs => a == b && leadsWith as bs

/-- Whether the first list occurs contiguously anywhere in the second. -/
def containsSub (needle : List Char) : List Char → Bool
  | [] => leadsWith needle []
  | c :: rest => leadsWith needle (c :: rest) || containsSub needle rest

/-- The String.prototype.includes test used by the route catch block. -/
def includes (s sub : String) : Bool := containsSub sub.toList s.toList

/-- Message of a thrown Error object (empty for non-Error values, which the
classifier never inspects). -/
def errMsg : JsError → String
  | JsError.http h => h.message
  | JsError.err _ m _ => m
  | JsError.other _ => ""

/-- Whether the thrown value carries the backendError marker property set
by createClientErrorFromBackend. -/
def hasBackendFlag : JsError → Bool
  | JsError.err _ _ bk => bk
  | _ => false

/-- Fields of a backend error JSON object recovered from an upstream error
message by the regex-and-JSON.parse extraction of the route catch block. -/
structure BackendErrorShape where
  error : JsVal
  message : JsVal
  request_id : JsVal
  details : JsVal

/-- Fallback InternalServerError of the route catch block when no backend
JSON object could be recovered from the error message; extractReqId stands
for the request_id regex extraction over the message. -/
def backendFallback (extractReqId : String → JsVal) (msg : String) : HttpException :=
  InternalServerError.make "Backend service error. Please check backend logs for details."
    (some [("originalError", JsVal.str msg), ("requestId", extractReqId msg)])

/-- The catch block of the copilotkit POST route: for a thrown Error value
without the backendError marker it rethrows a classified HttpException by
inspecting the message. Messages mentioning ECONNREFUSED or connect give a
503 ServiceUnavailableError; otherwise messages mentioning timeout give a
502 BadGatewayError; otherwise messages mentioning HTTP 500, Internal
server error or HTTP give a 500 InternalServerError built from the backend
JSON extraction (parseBackend stands for the regex match plus JSON.parse;
extractReqId for the request_id regex). Every other value is rethrown
unchanged. -/
def postCatchClassify (parseBackend : String → Option BackendErrorShape)
    (extractReqId : String → JsVal) (agentUrl : String) (e : JsError) : JsError :=
  match e with
  | JsError.other _ => e
  | _ =>
    if hasBackendFlag e then e
    else
      let msg := errMsg e
      if includes msg "ECONNREFUSED" || includes msg "connect" then
        JsError.http (ServiceUnavailableError.make
          "Unable to connect to the code review agent. Please ensure the backend service is running."
          (some [("agentUrl", JsVal.str agentUrl)]))
      else if includes msg "timeout" then
        JsError.http (BadGatewayError.make
          "Request to code review agent timed out. Please try again."
          (some [("timeout", JsVal.boolean true)]))
      else if includes msg "HTTP 500" || includes msg "Internal server error" || includes msg "HTTP" then
        match parseBackend msg with
        | some b =>
            JsError.http (InternalServerError.make
              (if b.message.truthy then b.message.jsToString else "Backend service error occurred")
              (some [("backendError", b.error), ("requestId", b.request_id),
                     ("details", b.details), ("originalError", JsVal.str msg)]))
        | none => JsError.http (backendFallback extractReqId msg)
      else e

/-- An HTTP response as parseBackendErrorResponse inspects one: the ok
flag, status and statusText, the JSON.parse result of the body (none when
parsing rejects), and the X-Request-ID header. -/
structure ResponseModel where
  ok : Bool
  status : Nat
  statusText : String
  jsonBody : Option JsVal
  xRequestId : Option String

/-- The BackendErrorResponse record of backend-error-handler; field values
are the raw JavaScript values taken from the parsed body. -/
structure BackendErrorResponse where
  error : JsVal
  message : JsVal
  request_id : JsVal
  timestamp : JsVal
  details : JsVal

/-- The generic record returned when the body of a non-ok response could
not be read as a backend error object: Unknown Error, the HTTP status
line, and the request id from the X-Request-ID header (undefined when the
header is absent or empty, the || undefined coercion). -/
def genericBackendError (r : ResponseModel) : BackendErrorResponse :=
  { error := JsVal.str "Unknown Error"
    message := JsVal.str ("HTTP " ++ toString r.status ++ ": " ++ r.statusText)
    request_id := match r.xRequestId with
      | some s => if s.isEmpty then JsVal.undef else JsVal.str s
      | none => JsVal.undef
    timestamp := JsVal.undef
    details := JsVal.undef }

/-- parseBackendErrorResponse of backend-error-handler: null for ok
responses; for non-ok responses, the backend record when the parsed body
has truthy error and message fields, null when it parses but lacks them,
and the generic record when reading the body throws (JSON parse failure,
or property access on a null body). -/
def parseBackendErrorResponse (r : ResponseModel) : Option BackendErrorResponse :=
  if r.ok then none
  else
    match r.jsonBody with
    | none => some (genericBackendError r)
    | some JsVal.null => some (genericBackendError r)
    | some data =>
        if (data.getField "error").truthy && (data.getField "message").truthy then
          some { error := data.getField "error"
                 message := data.getField "message"
                 request_id := data.getField "request_id"
                 timestamp := data.getField "timestamp"
                 details := data.getField "details" }
        else none

/-- Modelled from the spec: the error taxonomy of the backend pipeline
(entry_node.py and companions are not part of the sources here). InputError
is terminal at Entry; UpstreamError and InternalError abort a run. -/
inductive PipelineError where
  | inputError : String → PipelineError
  | upstreamError : String → PipelineError
  | internalError : String → PipelineError
deriving DecidableEq, Repr

/-- Modelled from the spec: the status of one StageResult. -/
inductive StageStatus where
  | done : StageStatus
  | failed : StageStatus
  | skipped : StageStatus
deriving DecidableEq, Repr

/-- Modelled from the spec: the four named stages of the fixed pipeline. -/
inductive StageName where
  | entry : StageName
  | validation : StageName
  | analysis : StageName
  | summary : StageName
deriving DecidableEq, Repr

/-- Modelled from the spec: one StageResult appended to the run record by a
stage. -/
structure StageResult where
  stage_name : StageName
  status : StageStatus
  narrative : Option String
  error : Option PipelineError
deriving DecidableEq, Repr

/-- Modelled from the spec: the PipelineRun record shared by the stages,
with the extracted code, the append-only stage_results list, and the
terminal_error marker. -/
structure PipelineRun where
  code : Option String
  stage_results : List StageResult
  terminal_error : Option PipelineError
deriving DecidableEq, Repr

/-- Counters of effectful calls made during a run: deterministic tool
invocations and reasoning-model invocations. -/
structure Effects where
  toolCalls : Nat
  modelCalls : Nat
deriving DecidableEq, Repr

/-- Componentwise sum of effect counters. -/
def addEff (a b : Effects) : Effects :=
  { toolCalls := a.toolCalls + b.toolCalls, modelCalls := a.modelCalls + b.modelCalls }

/-- Modelled from the spec: the read-only environment of a run, abstracting
the heuristic check suite, the structural extractor, and the reasoning
model client (none models an unavailable or timed-out model call). -/
structure PipelineEnv where
  runChecks : String → List String
  extractStruct : String → String
  narrate : String → Option String

/-- Drops leading whitespace characters of a character list. -/
def dropLeadWs : List Char → List Char
  | [] => []
  | c :: cs => if c.isWhitespace then dropLeadWs cs else c :: cs

/-- Modelled from the spec: the whitespace trimming performed by the Entry
stage, removing leading and trailing whitespace characters. -/
def trimWs (s : String) : String :=
  String.mk ((dropLeadWs ((dropLeadWs s.toList).reverse)).reverse)

/-- Modelled from the spec: the Entry stage (entry_node.py is not part of
the sources here). It trims whitespace; on empty code it sets
terminal_error to InputError and records a failed StageResult, making no
tool or model call; otherwise it stores the code artifact and records a
done StageResult. -/
def entryStage (input : String) (run : PipelineRun) : PipelineRun × Effects :=
  let c := trimWs input
  if c.isEmpty then
    ({ run with
        terminal_error := some (PipelineError.inputError "no code provided")
        stage_results := run.stage_results
          ++ [{ stage_name := StageName.entry, status := StageStatus.failed,
                narrative := none, error := some (PipelineError.inputError "no code provided") }] },
     { toolCalls := 0, modelCalls := 0 })
  else
    ({ run with
        code := some c
        stage_results := run.stage_results
          ++ [{ stage_name := StageName.entry, status := StageStatus.done,
                narrative := none, error := none }] },
     { toolCalls := 0, modelCalls := 0 })

/-- Modelled from the spec: the Validation stage (validation_node.py is not
part of the sources here). It runs parse plus the heuristic detectors (two
tool invocations) and one reasoning-model call; on model failure the stage
still completes done with a null narrative. -/
def validationStage (env : PipelineEnv) (run : PipelineRun) : PipelineRun × Effects :=
  let findings := env.runChecks (run.code.getD "")
  let narrative := env.narrate (String.intercalate "\n" findings)
  ({ run with
      stage_results := run.stage_results
        ++ [{ stage_name := StageName.validation, status := StageStatus.done,
              narrative := narrative, error := none }] },
   { toolCalls := 2, modelCalls := 1 })

/-- Modelled from the spec: the Analysis stage (analyzer_node is not part
of the sources here). It runs structural extraction (one tool invocation)
and one reasoning-model call, degrading to a null narrative on model
failure. -/
def analysisStage (env : PipelineEnv) (run : PipelineRun) : PipelineRun × Effects :=
  let structInfo := env.extractStruct (run.code.getD "")
  let narrative := env.narrate structInfo
  ({ run with
      stage_results := run.stage_results
        ++ [{ stage_name := StageName.analysis, status := StageStatus.done,
              narrative := narrative, error := none }] },
   { toolCalls := 1, modelCalls := 1 })

/-- Modelled from the spec: the prompt of the Summary stage, combining the
narratives of the prior stages. -/
def summaryPrompt (run : PipelineRun) : String :=
  String.intercalate "\n" (run.stage_results.filterMap (fun r => r.narrative))

/-- Modelled from the spec: the Summary stage (summarizer_node is not part
of the sources here). It makes no tool call and one reasoning-model call;
as the sole productive stage, a model failure here sets terminal_error to
an UpstreamError and the stage records failed. -/
def summaryStage (env : PipelineEnv) (run : PipelineRun) : PipelineRun × Effects :=
  match env.narrate (summaryPrompt run) with
  | some text =>
      ({ run with
          stage_results := run.stage_results
            ++ [{ stage_name := StageName.summary, status := StageStatus.done,
                  narrative := some text, error := none }] },
       { toolCalls := 0, modelCalls := 1 })
  | none =>
      ({ run with
          terminal_error := some (PipelineError.upstreamError "summary model call failed")
          stage_results := run.stage_results
            ++ [{ stage_name := StageName.summary, status := StageStatus.failed,
                  narrative := none, error := some (PipelineError.upstreamError "summary model call failed") }] },
       { toolCalls := 0, modelCalls := 1 })

/-- Modelled from the spec: the StageResult recorded for a stage skipped
after a terminal error. -/
def skippedResult (name : StageName) : StageResult :=
  { stage_name := name, status := StageStatus.skipped, narrative := none, error := none }

/-- Modelled from the spec: one orchestrator step. When terminal_error is
already set the stage body does not execute: a skipped StageResult is
recorded and no tool or model call is made; otherwise the stage body runs
and its effects are added. -/
def stepStage (name : StageName) (body : PipelineRun → PipelineRun × Effects)
    (acc : PipelineRun × Effects) : PipelineRun × Effects :=
  if acc.1.terminal_error.isSome then
    ({ acc.1 with stage_results := acc.1.stage_results ++ [skippedResult name] }, acc.2)
  else
    let r := body acc.1
    (r.1, addEff acc.2 r.2)

/-- Modelled from the spec: the fresh PipelineRun created at request
entry. -/
def initRun : PipelineRun :=
  { code := none, stage_results := [], terminal_error := none }

/-- Modelled from the spec: the Run Orchestrator, sequencing Entry,
Validation, Analysis and Summary over one shared run record. -/
def runPipeline (env : PipelineEnv) (input : String) : PipelineRun × Effects :=
  stepStage StageName.summary (summaryStage env)
    (stepStage StageName.analysis (analysisStage env)
      (stepStage StageName.validation (validationStage env)
        (stepStage StageName.entry (entryStage input)
          (initRun, { toolCalls := 0, modelCalls := 0 }))))

/-- A fixed sample date used to instantiate the clock in concrete
evaluations. -/
def dt0 : DateTime :=
  { year := 2024, month := 1, day := 15, hour := 12, minute := 30, second := 45, millis := 123 }

/-- A backend JSON extraction that always fails, for concrete instances. -/
def pbNone : String → Option BackendErrorShape := fun _ => none

/-- A request-id extraction that always misses, for concrete instances. -/
def ridNone : String → JsVal := fun _ => JsVal.undef

/-- The default agent URL of the route module. -/
def agentUrlDefault : String := "http://localhost:8123"

/-- The seven status codes of the taxonomy stated at the response boundary
by the design document. -/
def claimedTaxonomy : List Nat := [400, 422, 429, 500, 502, 503, 504]

/-- The twelve members of the HttpStatusCode union type of the types
module. -/
def httpStatusCodes : List Nat := [400, 401, 403, 404, 405, 409, 422, 429, 500, 502, 503, 504]

/-- A concrete pipeline environment for instantiations: no findings, the
identity extractor, and an always-successful model. -/
def envC : PipelineEnv :=
  { runChecks := fun _ => [], extractStruct := fun s => s, narrate := fun _ => some "narrative" }

/-- A concrete run whose terminal_error is already set. -/
def runTermC : PipelineRun :=
  { code := none, stage_results := [], terminal_error := some (PipelineError.internalError "boom") }

/-- A concrete request for instantiations. -/
def reqC : RequestModel := { method := "POST", url := "/api/copilotkit" }

/-- C1: for every error value handled by handleApiError, the JSON body
carries the error and message strings of the derived HttpException, a
status_code equal to the HTTP status of the response itself, an ISO-8601
timestamp, and a details object exactly when the derived HttpException
carries details. -/
theorem C1_error_envelope (e : JsError) (now : DateTime) :
    (handleApiError e now).2.status_code = (handleApiError e now).1
    ∧ (handleApiError e now).2.error = (toHttpException e).error
    ∧ (handleApiError e now).2.message = (toHttpException e).message
    ∧ (handleApiError e now).2.timestamp = some (toISOString now)
    ∧ isISO8601String (toISOString now) = true
    ∧ (handleApiError e now).2.details = (toHttpException e).details := by
  simp only [handleApiError, HttpException.toJSON]
  split <;> simp [toISOString_iso]

/-- C2 counterexample: handleApiError applied to a plain Error produces an
envelope with no request_id field at all, refuting the claim that every
envelope at the boundary carries one. -/
theorem C2_counterexample :
    (handleApiError (JsError.err "Error" "boom" false) dt0).2.request_id = none := rfl

/-- C2 amended: the envelope carries a request_id exactly when the details
of the derived HttpException hold a truthy requestId or request_id entry,
and then it is the String coercion of that value. -/
theorem C2_request_id_presence (e : JsError) (now : DateTime) :
    (handleApiError e now).2.request_id =
      (if (jsOr (optGetProp (toHttpException e).details "requestId")
            (optGetProp (toHttpException e).details "request_id")).truthy then
        some (jsOr (optGetProp (toHttpException e).details "requestId")
            (optGetProp (toHttpException e).details "request_id")).jsToString
      else none) := by
  simp only [handleApiError, HttpException.toJSON]
  split <;> simp_all

/-- C4: every thrown value that is not an HttpException is answered with
status 500 and the error name Internal Server Error, and a plain Error
keeps its message in the envelope. -/
theorem C4_non_http_internal_error (e : JsError) (now : DateTime)
    (hne : isHttpException e = false) :
    (handleApiError e now).1 = 500
    ∧ (handleApiError e now).2.error = "Internal Server Error"
    ∧ (∀ name msg bk, e = JsError.err name msg bk → (handleApiError e now).2.message = msg) := by
  cases e with
  | http h => simp [isHttpException] at hne
  | err name msg bk =>
      refine ⟨rfl, rfl, ?_⟩
      intro n m b heq
      cases heq
      rfl
  | other v =>
      refine ⟨rfl, rfl, ?_⟩
      intro n m b heq
      cases heq

theorem C4_witness :
    (handleApiError (JsError.err "TypeError" "bad input" false) dt0).1 = 500
    ∧ (handleApiError (JsError.err "TypeError" "bad input" false) dt0).2.error = "Internal Server Error"
    ∧ (handleApiError (JsError.err "TypeError" "bad input" false) dt0).2.message = "bad input" := by
  have h := C4_non_http_internal_error (JsError.err "TypeError" "bad input" false) dt0 rfl
  exact ⟨h.1, h.2.1, h.2.2 "TypeError" "bad input" false rfl⟩

/-- C8: toHttpException is total by type, is the identity on values that
are already HttpException, and is therefore idempotent. -/
theorem C8_toHttpException_idempotent :
    (∀ h : HttpException, toHttpException (JsError.http h) = h)
    ∧ (∀ e : JsError, toHttpException (JsError.http (toHttpException e)) = toHttpException e) :=
  ⟨fun _ => rfl, fun _ => rfl⟩

/-- C10: withErrorHandler returns the wrapped handler response unchanged on
success, and on any thrown value returns the handleApiError response
instead of propagating the exception. -/
theorem C10_withErrorHandler_total {T : Type} (handler : RequestModel → Except JsError T)
    (req : RequestModel) (now : DateTime) :
    (∀ t, handler req = Except.ok t →
      withErrorHandler handler now req = RouteResponse.success t)
    ∧ (∀ e, handler req = Except.error e →
      withErrorHandler handler now req = RouteResponse.failure (handleApiError e now)) := by
  constructor
  · intro t ht
    simp [withErrorHandler, ht]
  · intro e he
    simp [withErrorHandler, he]

/-- A handler that succeeds with a constant payload. -/
def okHandler : RequestModel → Except JsError Nat := fun _ => Except.ok 7

/-- A handler that throws a plain Error. -/
def throwHandler : RequestModel → Except JsError Nat :=
  fun _ => Except.error (JsError.err "Error" "kaboom" false)

theorem C10_witness :
    withErrorHandler okHandler dt0 reqC = RouteResponse.success 7
    ∧ withErrorHandler throwHandler dt0 reqC
      = RouteResponse.failure (handleApiError (JsError.err "Error" "kaboom" false) dt0) :=
  ⟨(C10_withErrorHandler_total okHandler reqC dt0).1 7 rfl,
   (C10_withErrorHandler_total throwHandler reqC dt0).2 (JsError.err "Error" "kaboom" false) rfl⟩

/-- C3 counterexample: a timed-out upstream call (an Error whose message
mentions timeout) is surfaced with status 502, not the 504 the claim
states. -/
theorem C3_counterexample :
    (handleApiError (postCatchClassify pbNone ridNone agentUrlDefault
      (JsError.err "Error" "timeout" false)) dt0).1 = 502
    ∧ (handleApiError (postCatchClassify pbNone ridNone agentUrlDefault
      (JsError.err "Error" "timeout" false)) dt0).1 ≠ 504 :=
  ⟨rfl, by decide⟩

/-- C3 amended: an upstream failure whose message mentions ECONNREFUSED or
connect is surfaced with status 503, and one whose message mentions
timeout (and neither of those) with status 502; the route catch block
issues no 504. -/
theorem C3_upstream_status_codes (pb : String → Option BackendErrorShape)
    (ex : String → JsVal) (url name msg : String) (now : DateTime) :
    ((includes msg "ECONNREFUSED" = true ∨ includes msg "connect" = true) →
      (handleApiError (postCatchClassify pb ex url (JsError.err name msg false)) now).1 = 503)
    ∧ (includes msg "ECONNREFUSED" = false → includes msg "connect" = false →
       includes msg "timeout" = true →
      (handleApiError (postCatchClassify pb ex url (JsError.err name msg false)) now).1 = 502) := by
  constructor
  · intro h
    have hor : (includes msg "ECONNREFUSED" || includes msg "connect") = true := by
      rcases h with h | h <;> simp [h]
    simp [postCatchClassify, hasBackendFlag, errMsg, hor, handleApiError,
      toHttpException, ServiceUnavailableError.make, HttpException.make]
  · intro h1 h2 h3
    simp [postCatchClassify, hasBackendFlag, errMsg, h1, h2, h3, handleApiError,
      toHttpException, BadGatewayError.make, HttpException.make]

theorem C3_witness :
    (handleApiError (postCatchClassify pbNone ridNone agentUrlDefault
      (JsError.err "Error" "ECONNREFUSED" false)) dt0).1 = 503
    ∧ (handleApiError (postCatchClassify pbNone ridNone agentUrlDefault
      (JsError.err "Error" "socket timeout" false)) dt0).1 = 502 :=
  ⟨(C3_upstream_status_codes pbNone ridNone agentUrlDefault "Error" "ECONNREFUSED" dt0).1 (Or.inl rfl),
   (C3_upstream_status_codes pbNone ridNone agentUrlDefault "Error" "socket timeout" dt0).2 rfl rfl rfl⟩

/-- The 405 exception raised by validateRequest on a method mismatch. -/
def m405 : HttpException :=
  HttpException.make 405 "Method POST not allowed. Expected GET" (some "Method Not Allowed") none

/-- Options requiring the GET method. -/
def optsGet : ValidateOptions :=
  { requiredMethod := some "GET", requiredBody := none, requiredHeaders := none }

/-- C7 counterexample: validateRequest raises a 405 HttpException on a
method mismatch, and handleApiError surfaces it with status 405, which is
outside the seven-code taxonomy the claim states. -/
theorem C7_counterexample :
    validateRequest reqC (some optsGet) = Except.error m405
    ∧ (handleApiError (JsError.http m405) dt0).1 = 405
    ∧ claimedTaxonomy.contains 405 = false :=
  ⟨rfl, rfl, by decide⟩

/-- C7 amended: every status surfaced by handleApiError belongs to the
twelve-member HttpStatusCode union of the types module, provided any
directly thrown HttpException carries a code of that union (which the
TypeScript type enforces); non-HttpException values always surface 500. -/
theorem C7_boundary_status_codes (e : JsError) (now : DateTime)
    (hc : ∀ h, e = JsError.http h → httpStatusCodes.contains h.statusCode = true) :
    httpStatusCodes.contains (handleApiError e now).1 = true := by
  cases e with
  | http h =>
      have h1 : (handleApiError (JsError.http h) now).1 = h.statusCode := rfl
      rw [h1]
      exact hc h rfl
  | err name msg bk =>
      have h1 : (handleApiError (JsError.err name msg bk) now).1 = 500 := rfl
      rw [h1]
      decide
  | other v =>
      have h1 : (handleApiError (JsError.other v) now).1 = 500 := rfl
      rw [h1]
      decide

theorem C7_witness :
    httpStatusCodes.contains (handleApiError (JsError.err "Error" "oops" false) dt0).1 = true :=
  C7_boundary_status_codes (JsError.err "Error" "oops" false) dt0 (fun _ heq => nomatch heq)

/-- C9: parseBackendErrorResponse returns null for ok responses; for a
non-ok response it returns the backend record preserving error, message,
request_id, timestamp and details when the parsed body has truthy error
and message fields, null when the body parses but lacks them, and the
generic Unknown Error record carrying the X-Request-ID header when the
body cannot be read. -/
theorem C9_parseBackendErrorResponse_cases (r : ResponseModel) :
    (r.ok = true → parseBackendErrorResponse r = none)
    ∧ (r.ok = false → r.jsonBody = none →
        parseBackendErrorResponse r = some (genericBackendError r)
        ∧ (genericBackendError r).error = JsVal.str "Unknown Error"
        ∧ (genericBackendError r).message = JsVal.str ("HTTP " ++ toString r.status ++ ": " ++ r.statusText)
        ∧ (∀ s, r.xRequestId = some s → s.isEmpty = false →
            (genericBackendError r).request_id = JsVal.str s))
    ∧ (r.ok = false → ∀ l, r.jsonBody = some (JsVal.obj l) →
        (((JsVal.obj l).getField "error").truthy = true →
          ((JsVal.obj l).getField "message").truthy = true →
          parseBackendErrorResponse r = some
            { error := (JsVal.obj l).getField "error"
              message := (JsVal.obj l).getField "message"
              request_id := (JsVal.obj l).getField "request_id"
              timestamp := (JsVal.obj l).getField "timestamp"
              details := (JsVal.obj l).getField "details" })
        ∧ ((((JsVal.obj l).getField "error").truthy
            && ((JsVal.obj l).getField "message").truthy) = false →
          parseBackendErrorResponse r = none)) := by
  refine ⟨?_, ?_, ?_⟩
  · intro hok
    simp [parseBackendErrorResponse, hok]
  · intro hok hjb
    refine ⟨?_, rfl, rfl, ?_⟩
    · simp [parseBackendErrorResponse, hok, hjb]
    · intro s hs hse
      simp [genericBackendError, hs, hse]
  · intro hok l hjb
    constructor
    · intro he hm
      simp [parseBackendErrorResponse, hok, hjb, he, hm]
    · intro hfalse
      simp [parseBackendErrorResponse, hok, hjb, hfalse]

/-- An ok response, for instantiations. -/
def rOk : ResponseModel :=
  { ok := true, status := 200, statusText := "OK", jsonBody := none, xRequestId := none }

/-- The parsed body of a well-formed backend error response. -/
def bodyBad : List (String × JsVal) :=
  [("error", JsVal.str "Internal Server Error"), ("message", JsVal.str "boom"),
   ("request_id", JsVal.str "req-42")]

/-- A non-ok response with a well-formed backend error body. -/
def rBad : ResponseModel :=
  { ok := false, status := 500, statusText := "Internal Server Error",
    jsonBody := some (JsVal.obj bodyBad), xRequestId := none }

/-- A non-ok response whose body is not JSON. -/
def rNoJson : ResponseModel :=
  { ok := false, status := 502, statusText := "Bad Gateway", jsonBody := none,
    xRequestId := some "req-7" }

/-- A non-ok response whose JSON body lacks the message field. -/
def rMissing : ResponseModel :=
  { ok := false, status := 500, statusText := "Internal Server Error",
    jsonBody := some (JsVal.obj [("error", JsVal.str "X")]), xRequestId := none }

theorem C9_witness :
    parseBackendErrorResponse rOk = none
    ∧ parseBackendErrorResponse rNoJson = some (genericBackendError rNoJson)
    ∧ (genericBackendError rNoJson).request_id = JsVal.str "req-7"
    ∧ parseBackendErrorResponse rBad = some
        { error := (JsVal.obj bodyBad).getField "error"
          message := (JsVal.obj bodyBad).getField "message"
          request_id := (JsVal.obj bodyBad).getField "request_id"
          timestamp := (JsVal.obj bodyBad).getField "timestamp"
          details := (JsVal.obj bodyBad).getField "details" }
    ∧ parseBackendErrorResponse rMissing = none :=
  ⟨(C9_parseBackendErrorResponse_cases rOk).1 rfl,
   ((C9_parseBackendErrorResponse_cases rNoJson).2.1 rfl rfl).1,
   ((C9_parseBackendErrorResponse_cases rNoJson).2.1 rfl rfl).2.2.2 "req-7" rfl rfl,
   (((C9_parseBackendErrorResponse_cases rBad).2.2 rfl bodyBad rfl).1 rfl rfl),
   (((C9_parseBackendErrorResponse_cases rMissing).2.2 rfl
      [("error", JsVal.str "X")] rfl).2 rfl)⟩

theorem summaryStage_appends (env : PipelineEnv) (run : PipelineRun) :
    ∃ r, r.stage_name = StageName.summary
      ∧ (summaryStage env run).1.stage_results = run.stage_results ++ [r] := by
  unfold summaryStage
  cases env.narrate (summaryPrompt run) with
  | none => exact ⟨_, rfl, rfl⟩
  | some t => exact ⟨_, rfl, rfl⟩

/-- C5: within one run the four stages execute in the fixed order Entry,
Validation, Analysis, Summary, each appending exactly one StageResult to
the shared run record; every stage step extends stage_results by a single
appended element, leaving prior results untouched, and once terminal_error
is set a step records a skipped result without executing the stage body or
adding effects. -/
theorem C5_pipeline_sequencing (env : PipelineEnv) (input : String) :
    ((runPipeline env input).1.stage_results.map StageResult.stage_name
      = [StageName.entry, StageName.validation, StageName.analysis, StageName.summary])
    ∧ (∀ run, ∃ r, (entryStage input run).1.stage_results = run.stage_results ++ [r])
    ∧ (∀ run, ∃ r, (validationStage env run).1.stage_results = run.stage_results ++ [r])
    ∧ (∀ run, ∃ r, (analysisStage env run).1.stage_results = run.stage_results ++ [r])
    ∧ (∀ run, ∃ r, (summaryStage env run).1.stage_results = run.stage_results ++ [r])
    ∧ (∀ name body run eff, run.terminal_error.isSome = true →
        stepStage name body (run, eff)
          = ({ run with stage_results := run.stage_results ++ [skippedResult name] }, eff)) := by
  refine ⟨?_, ?_, ?_, ?_, ?_, ?_⟩
  · by_cases hin : (trimWs input).isEmpty
    · simp [runPipeline, stepStage, entryStage, hin, initRun, skippedResult]
    · simp [runPipeline, stepStage, entryStage, validationStage, analysisStage, hin, initRun]
      unfold summaryStage
      split <;> simp
  · intro run
    simp only [entryStage]
    split
    · exact ⟨_, rfl⟩
    · exact ⟨_, rfl⟩
  · intro run
    exact ⟨_, rfl⟩
  · intro run
    exact ⟨_, rfl⟩
  · intro run
    obtain ⟨r, _, hr⟩ := summaryStage_appends env run
    exact ⟨r, hr⟩
  · intro name body run eff h
    simp [stepStage, h]

theorem C5_witness :
    ((runPipeline envC "x = 1").1.stage_results.map StageResult.stage_name
      = [StageName.entry, StageName.validation, StageName.analysis, StageName.summary])
    ∧ stepStage StageName.validation (validationStage envC)
        (runTermC, { toolCalls := 0, modelCalls := 0 })
      = ({ runTermC with stage_results := runTermC.stage_results
            ++ [skippedResult StageName.validation] },
         { toolCalls := 0, modelCalls := 0 }) :=
  ⟨(C5_pipeline_sequencing envC "x = 1").1,
   (C5_pipeline_sequencing envC "x = 1").2.2.2.2.2 StageName.validation (validationStage envC)
     runTermC { toolCalls := 0, modelCalls := 0 } rfl⟩

/-- C6: for every input whose code is empty after trimming, the run
terminates at the Entry stage with the InputError no code provided, the
three remaining stages are recorded skipped, and zero tool calls and zero
reasoning-model calls occur during that run. -/
theorem C6_empty_input (env : PipelineEnv) (input : String)
    (hin : (trimWs input).isEmpty = true) :
    (runPipeline env input).1.terminal_error = some (PipelineError.inputError "no code provided")
    ∧ (runPipeline env input).2.toolCalls = 0
    ∧ (runPipeline env input).2.modelCalls = 0
    ∧ (runPipeline env input).1.stage_results.map (fun r => (r.stage_name, r.status))
      = [(StageName.entry, StageStatus.failed), (StageName.validation, StageStatus.skipped),
         (StageName.analysis, StageStatus.skipped), (StageName.summary, StageStatus.skipped)] := by
  refine ⟨?_, ?_, ?_, ?_⟩ <;>
    simp [runPipeline, stepStage, entryStage, hin, initRun, skippedResult, addEff]

theorem C6_witness :
    (runPipeline envC "   ").1.terminal_error = some (PipelineError.inputError "no code provided")
    ∧ (runPipeline envC "   ").2.toolCalls = 0
    ∧ (runPipeline envC "   ").2.modelCalls = 0
    ∧ (runPipeline envC "   ").1.stage_results.map (fun r => (r.stage_name, r.status))
      = [(StageName.entry, StageStatus.failed), (StageName.validation, StageStatus.skipped),
         (StageName.analysis, StageStatus.skipped), (StageName.summary, StageStatus.skipped)] :=
  C6_empty_input envC "   " (by decide)

end CodeReview
